import Mathlib

/-!
Verification of the Universal Ads Python SDK against its specification.

The development shallowly embeds the SDK's two components:
* `Authenticator` (`auth.py`): canonical-request construction, SHA-256
  hashing, ECDSA signing (the elliptic-curve point operation is abstract,
  everything around it is concrete), base64 encoding, auth-header assembly.
* `UniversalAdsClient` (`client.py`): URL/query/body preparation,
  response handling, and the per-endpoint query-parameter builders.

External primitives (`urllib.parse.urlparse`, `urlencode`, `json.dumps`,
`hashlib.sha256`, `base64.b64encode`) are modelled concretely from their
documented behaviour; the raw ECDSA signing operation and PEM key loading
are kept abstract (they are nondeterministic / external C code).
Machine words are `Nat` with explicit `% 2 ^ 32` where overflow matters;
fallible code returns `Option` / `Except`.
-/

namespace UniversalAds

/-! ## Python dictionary and string helpers -/

/-- Lookup in an insertion-ordered Python dict modelled as an association
list; `none` models a `KeyError` on `d[k]` access. -/
def pyDictGet (d : List (String × String)) (k : String) : Option String :=
  match d with
  | [] => none
  | (k', v) :: rest => if k' = k then some v else pyDictGet rest k

/-- Index of the first occurrence of `c` in `l`, like Python `str.find`
(`none` for `-1`). -/
def charFind (l : List Char) (c : Char) : Option Nat :=
  match l with
  | [] => none
  | x :: rest =>
    if x = c then some 0
    else match charFind rest c with
      | some i => some (i + 1)
      | none => none

/-- Index of the last occurrence of `c` in `l`, like Python `str.rfind`. -/
def charRFind (l : List Char) (c : Char) : Option Nat :=
  match l with
  | [] => none
  | x :: rest =>
    match charRFind rest c with
    | some i => some (i + 1)
    | none => if x = c then some 0 else none

/-- Index of the first occurrence of `c` at position `start` or later,
like Python `str.find(c, start)`. -/
def charFindFrom (l : List Char) (c : Char) (start : Nat) : Option Nat :=
  match charFind (l.drop start) c with
  | some i => some (start + i)
  | none => none

/-! ## Model of `urllib.parse.urlparse` (CPython `urllib/parse.py`)

`urlsplit` first removes leading WHATWG C0-control-or-space characters and
deletes every tab/CR/LF, then splits off `scheme`, `netloc`, `fragment`
and `query`; `urlparse` additionally splits `;params` off the last path
segment.  The bracket-validation `ValueError` for nonsensical IPv6
netlocs is not modelled (no claim concerns such URLs). -/

structure ParseResult where
  scheme : String
  netloc : String
  path : String
  params : String
  query : String
  fragment : String
deriving Repr, DecidableEq

/-- WHATWG C0 control or space: code points `0x00`–`0x20`. -/
def isC0OrSpace (c : Char) : Bool := c.toNat ≤ 0x20

/-- Characters valid inside a URL scheme token. -/
def isSchemeChar (c : Char) : Bool :=
  c.isAlphanum || c = '+' || c = '-' || c = '.'

/-- Split `scheme:` off the front when the prefix before the first `:` is a
well-formed scheme token (CPython lowercases the scheme). -/
def splitScheme (l : List Char) : List Char × List Char :=
  match charFind l ':' with
  | none => ([], l)
  | some i =>
    if 0 < i ∧ (l.headD ' ').isAlpha ∧ (l.take i).all isSchemeChar then
      ((l.take i).map Char.toLower, l.drop (i + 1))
    else ([], l)

/-- `_splitnetloc`: the netloc runs from position 2 up to the first of
`/`, `?`, `#`. -/
def splitNetloc (l : List Char) : List Char × List Char :=
  let rest := l.drop 2
  let netloc := rest.takeWhile (fun c => ¬ (c = '/' ∨ c = '?' ∨ c = '#'))
  (netloc, rest.dropWhile (fun c => ¬ (c = '/' ∨ c = '?' ∨ c = '#')))

/-- Split at the first occurrence of `c`: `("a#b").split(c, 1)`. When `c`
is absent the second component is empty and the first is the whole input. -/
def splitOnce (l : List Char) (c : Char) : List Char × List Char :=
  match charFind l c with
  | none => (l, [])
  | some i => (l.take i, l.drop (i + 1))

/-- `_splitparams`: split `;params` off the last path segment. -/
def splitParams (l : List Char) : List Char × List Char :=
  match charFind l '/' with
  | some _ =>
    match charFindFrom l ';' ((charRFind l '/').getD 0) with
    | none => (l, [])
    | some i => (l.take i, l.drop (i + 1))
  | none =>
    match charFind l ';' with
    | none => (l, [])
    | some i => (l.take i, l.drop (i + 1))

/-- Model of `urllib.parse.urlparse`. -/
def urlparse (url : String) : ParseResult :=
  let l := (url.data.dropWhile isC0OrSpace).filter
    (fun c => ¬ (c = '\t' ∨ c = '\r' ∨ c = '\n'))
  let (scheme, l) := splitScheme l
  let (netloc, l) :=
    if l.take 2 = ['/', '/'] then splitNetloc l else ([], l)
  let (l, fragment) :=
    if l.contains '#' then splitOnce l '#' else (l, [])
  let (l, query) :=
    if l.contains '?' then splitOnce l '?' else (l, [])
  let (path, params) :=
    if l.contains ';' then splitParams l else (l, [])
  { scheme := String.mk scheme, netloc := String.mk netloc,
    path := String.mk path, params := String.mk params,
    query := String.mk query, fragment := String.mk fragment }

/-! ## `Authenticator.create_canonical_request` (`auth.py` lines 38–71) -/

/-- Source line 60: `path = parsed_url.path or "/"`. -/
def canonicalPath (url : String) : String :=
  if (urlparse url).path = "" then "/" else (urlparse url).path

/-- Source line 61: `query = parsed_url.query or ""`. -/
def canonicalQuery (url : String) : String :=
  if (urlparse url).query = "" then "" else (urlparse url).query

/-- `Authenticator.create_canonical_request`.  The `headers` dict access
`headers["x-api-key"]` can raise `KeyError`, so the result is an
`Option`. -/
def create_canonical_request (method url : String)
    (headers : List (String × String)) (timestamp : String)
    (body : String := "") : Option String :=
  let path := canonicalPath url
  let query := canonicalQuery url
  match pyDictGet headers "x-api-key" with
  | none => none
  | some apiKey =>
    let canonical_headers :=
      "x-api-key:" ++ apiKey ++ "\n" ++ "x-timestamp:" ++ timestamp
    let signed_headers := "x-api-key;x-timestamp"
    let body := if body = "" then "" else body
    some (method ++ "\n" ++ path ++ "\n" ++ query ++ "\n" ++
      canonical_headers ++ "\n" ++ body ++ "\n" ++ signed_headers)

/-! ## UTF-8 encoding (`str.encode("utf-8")`) -/

/-- UTF-8 encoding of a single code point, as a list of bytes. -/
def utf8EncodeChar (c : Char) : List Nat :=
  let n := c.toNat
  if n < 0x80 then [n]
  else if n < 0x800 then [0xC0 + n / 64, 0x80 + n % 64]
  else if n < 0x10000 then
    [0xE0 + n / 4096, 0x80 + n / 64 % 64, 0x80 + n % 64]
  else
    [0xF0 + n / 262144, 0x80 + n / 4096 % 64, 0x80 + n / 64 % 64,
      0x80 + n % 64]

/-- UTF-8 byte sequence of a string. -/
def utf8Encode (s : String) : List Nat := s.data.flatMap utf8EncodeChar

/-! ## SHA-256 (`hashlib.sha256`)

Concrete FIPS 180-4 implementation over byte lists; 32-bit words are
`Nat` reduced `% 2 ^ 32`. -/

/-- Right rotation of a 32-bit word. -/
def rotr32 (n x : Nat) : Nat :=
  (x / 2 ^ n + x % 2 ^ n * 2 ^ (32 - n)) % 2 ^ 32

def sigmaSmall0 (x : Nat) : Nat := rotr32 7 x ^^^ rotr32 18 x ^^^ x / 2 ^ 3

def sigmaSmall1 (x : Nat) : Nat := rotr32 17 x ^^^ rotr32 19 x ^^^ x / 2 ^ 10

def sigmaBig0 (x : Nat) : Nat := rotr32 2 x ^^^ rotr32 13 x ^^^ rotr32 22 x

def sigmaBig1 (x : Nat) : Nat := rotr32 6 x ^^^ rotr32 11 x ^^^ rotr32 25 x

/-- The 64 SHA-256 round constants. -/
def sha256K : List Nat :=
  [1116352408, 1899447441, 3049323471, 3921009573,
   961987163, 1508970993, 2453635748, 2870763221,
   3624381080, 310598401, 607225278, 1426881987,
   1925078388, 2162078206, 2614888103, 3248222580,
   3835390401, 4022224774, 264347078, 604807628,
   770255983, 1249150122, 1555081692, 1996064986,
   2554220882, 2821834349, 2952996808, 3210313671,
   3336571891, 3584528711, 113926993, 338241895,
   666307205, 773529912, 1294757372, 1396182291,
   1695183700, 1986661051, 2177026350, 2456956037,
   2730485921, 2820302411, 3259730800, 3345764771,
   3516065817, 3600352804, 4094571909, 275423344,
   430227734, 506948616, 659060556, 883997877,
   958139571, 1322822218, 1537002063, 1747873779,
   1955562222, 2024104815, 2227730452, 2361852424,
   2428436474, 2756734187, 3204031479, 3329325298]

/-- The SHA-256 initial hash value. -/
def sha256H0 : List Nat :=
  [1779033703, 3144134277, 1013904242, 2773480762,
   1359893119, 2600822924, 528734635, 1541459225]

/-- FIPS padding: append `0x80`, zeros, then the 64-bit big-endian bit
length, reaching a multiple of 64 bytes. -/
def sha256Pad (msg : List Nat) : List Nat :=
  let len := msg.length
  let zeros := (119 - len % 64) % 64
  let bitLen := len * 8
  msg ++ [0x80] ++ List.replicate zeros 0 ++
    [bitLen / 2 ^ 56 % 256, bitLen / 2 ^ 48 % 256, bitLen / 2 ^ 40 % 256,
     bitLen / 2 ^ 32 % 256, bitLen / 2 ^ 24 % 256, bitLen / 2 ^ 16 % 256,
     bitLen / 2 ^ 8 % 256, bitLen % 256]

/-- Group bytes into 32-bit big-endian words. -/
def toWords32 : List Nat → List Nat
  | b0 :: b1 :: b2 :: b3 :: rest =>
    (((b0 * 256 + b1) * 256 + b2) * 256 + b3) :: toWords32 rest
  | _ => []

/-- A 32-bit word as four big-endian bytes. -/
def wordToBytes32 (w : Nat) : List Nat :=
  [w / 2 ^ 24 % 256, w / 2 ^ 16 % 256, w / 2 ^ 8 % 256, w % 256]

/-- Extend the 16-word message schedule by `n` further words. -/
def sha256Extend : List Nat → Nat → List Nat
  | w, 0 => w
  | w, n + 1 =>
    let len := w.length
    let nw := (sigmaSmall1 (w.getD (len - 2) 0) + w.getD (len - 7) 0 +
      sigmaSmall0 (w.getD (len - 15) 0) + w.getD (len - 16) 0) % 2 ^ 32
    sha256Extend (w ++ [nw]) n

/-- One round of the SHA-256 compression function. -/
def sha256Round (s : List Nat) (kw : Nat × Nat) : List Nat :=
  match s with
  | [a, b, c, d, e, f, g, h] =>
    let ch := (e &&& f) ^^^ ((e ^^^ 0xffffffff) &&& g)
    let maj := (a &&& b) ^^^ (a &&& c) ^^^ (b &&& c)
    let t1 := (h + sigmaBig1 e + ch + kw.1 + kw.2) % 2 ^ 32
    let t2 := (sigmaBig0 a + maj) % 2 ^ 32
    [(t1 + t2) % 2 ^ 32, a, b, c, (d + t1) % 2 ^ 32, e, f, g]
  | s => s

/-- Process one 64-byte block. -/
def sha256Block (h : List Nat) (block : List Nat) : List Nat :=
  let w := sha256Extend (toWords32 block) 48
  let s := (sha256K.zip w).foldl sha256Round h
  (h.zip s).map (fun p => (p.1 + p.2) % 2 ^ 32)

/-- Cut a byte list into 64-byte chunks. -/
def chunks64 : List Nat → List (List Nat)
  | [] => []
  | b :: rest => ((b :: rest).take 64) :: chunks64 ((b :: rest).drop 64)
termination_by l => l.length
decreasing_by
  simp [List.length_drop]
  omega

/-- SHA-256 digest (32 bytes) of a byte list. -/
def sha256 (msg : List Nat) : List Nat :=
  ((chunks64 (sha256Pad msg)).foldl sha256Block sha256H0).flatMap wordToBytes32

/-! ## Base64 (`base64.b64encode`), standard alphabet with padding -/

/-- The RFC 4648 standard base64 alphabet. -/
def base64Alphabet : List Char :=
  "ABCDEFGHIJKLMNOPQRSTUVWXYZabcdefghijklmnopqrstuvwxyz0123456789+/".data

/-- The alphabet character for a 6-bit group. -/
def base64Digit (n : Nat) : Char := base64Alphabet.getD (n % 64) 'A'

/-- Standard base64 encoding of a byte list, with `=` padding. -/
def base64Encode : List Nat → List Char
  | [] => []
  | [b1] => [base64Digit (b1 / 4), base64Digit (b1 % 4 * 16), '=', '=']
  | [b1, b2] =>
    [base64Digit (b1 / 4), base64Digit (b1 % 4 * 16 + b2 / 16),
      base64Digit (b2 % 16 * 4), '=']
  | b1 :: b2 :: b3 :: rest =>
    base64Digit (b1 / 4) :: base64Digit (b1 % 4 * 16 + b2 / 16) ::
      base64Digit (b2 % 16 * 4 + b3 / 64) :: base64Digit (b3 % 64) ::
      base64Encode rest

/-! ## ECDSA signing model (`cryptography.hazmat.primitives.asymmetric.ec`)

The raw curve operation producing a DER-encoded signature from a digest is
abstract (nondeterministic, external C code); the library's dispatch on the
signature algorithm is modelled: `ec.ECDSA(hashes.SHA256())` hashes the
input itself, `ec.ECDSA(utils.Prehashed(hashes.SHA256()))` signs the given
bytes as an already-computed digest. -/

/-- A loaded EC private key: the underlying raw signing operation over a
digest, producing DER signature bytes. -/
structure ECPrivateKey where
  signRaw : List Nat → List Nat

/-- The hashing mode baked into `ec.ECDSA(...)`. -/
inductive ECDSAMode
  | prehashedSha256
  | sha256Hash
deriving DecidableEq

/-- `private_key.sign(data, ec.ECDSA(mode))`. -/
def privateKeySign (key : ECPrivateKey) (data : List Nat) :
    ECDSAMode → List Nat
  | .prehashedSha256 => key.signRaw data
  | .sha256Hash => key.signRaw (sha256 data)

/-! ## `Authenticator.sign_request` (`auth.py` lines 73–92) -/

/-- `Authenticator.sign_request`: SHA-256 the canonical request's UTF-8
bytes, sign the digest in prehashed mode, base64-encode the signature. -/
def sign_request (key : ECPrivateKey) (canonical_request : String) : String :=
  let hashed := sha256 (utf8Encode canonical_request)
  let signature := privateKeySign key hashed .prehashedSha256
  String.mk (base64Encode signature)

/-! ## `Authenticator.get_auth_headers` (`auth.py` lines 94–124)

The clock read `int(time.time())` is the explicit parameter `now`
(Unix seconds). -/

/-- The fixed four headers built at `auth.py` lines 108–113. -/
def baseHeaders (api_key : String) (timestamp : String) :
    List (String × String) :=
  [("x-api-key", api_key), ("x-timestamp", timestamp),
   ("x-sdk-version", "1.0.0"),
   ("x-sdk-source", "universal-ads-python-sdk")]

/-- `Authenticator.get_auth_headers`. -/
def get_auth_headers (key : ECPrivateKey) (api_key : String) (now : Nat)
    (method url : String) (body : String := "") :
    Option (List (String × String)) :=
  let timestamp := toString now
  let headers := baseHeaders api_key timestamp
  match create_canonical_request method url headers timestamp body with
  | none => none
  | some canonical_request =>
    some (headers ++ [("x-signature", sign_request key canonical_request)])

/-! ## JSON values (results of `response.json()` / inputs of `json.dumps`) -/

inductive Json
  | null
  | bool (b : Bool)
  | num (n : Int)
  | str (s : String)
  | arr (items : List Json)
  | obj (entries : List (String × Json))
deriving Repr

/-- The double-quote character. -/
def dquote : Char := Char.ofNat 34

/-- The apostrophe character. -/
def squote : Char := Char.ofNat 39

def hexDigitLower (n : Nat) : Char := "0123456789abcdef".data.getD (n % 16) '0'

/-- One `\uXXXX` escape unit. -/
def uEscapeUnit (k : Nat) : List Char :=
  ['\\', 'u', hexDigitLower (k / 4096), hexDigitLower (k / 256),
    hexDigitLower (k / 16), hexDigitLower k]

/-- `\uXXXX` escape of a code point, as a surrogate pair above `0xFFFF`
(CPython `json` with `ensure_ascii=True`). -/
def uEscape (c : Char) : List Char :=
  let n := c.toNat
  if n < 0x10000 then uEscapeUnit n
  else uEscapeUnit (0xD800 + (n - 0x10000) / 0x400) ++
    uEscapeUnit (0xDC00 + (n - 0x10000) % 0x400)

/-- Escape of one character inside a JSON string literal
(`json.dumps` default: `ensure_ascii=True`). -/
def jsonEscapeChar (c : Char) : List Char :=
  if c = dquote then ['\\', dquote]
  else if c = '\\' then ['\\', '\\']
  else if c = '\n' then ['\\', 'n']
  else if c = '\t' then ['\\', 't']
  else if c = '\r' then ['\\', 'r']
  else if c.toNat = 8 then ['\\', 'b']
  else if c.toNat = 12 then ['\\', 'f']
  else if c.toNat < 0x20 ∨ 0x7e < c.toNat then uEscape c
  else [c]

/-- A JSON string literal: `json.dumps` of a Python `str`. -/
def jsonQuote (s : String) : String :=
  String.mk (dquote :: s.data.flatMap jsonEscapeChar ++ [dquote])

/-- Model of `json.dumps` with default arguments: separators `", "` and
`": "`, insertion order preserved, `ensure_ascii=True`. -/
def jsonDumps : Json → String
  | .null => "null"
  | .bool true => "true"
  | .bool false => "false"
  | .num n => toString n
  | .str s => jsonQuote s
  | .arr items =>
    "[" ++ String.intercalate ", "
      (items.attach.map fun x => jsonDumps x.1) ++ "]"
  | .obj entries =>
    "\x7b" ++ String.intercalate ", "
      (entries.attach.map fun x => jsonQuote x.1.1 ++ ": " ++ jsonDumps x.1.2)
      ++ "\x7d"
termination_by j => sizeOf j
decreasing_by
  · have := List.sizeOf_lt_of_mem x.2
    simp_all
    omega
  · rcases x with ⟨⟨k, v⟩, hmem⟩
    have := List.sizeOf_lt_of_mem hmem
    simp_all
    omega

/-! ## Python `str()` / `repr()` of parsed-JSON values -/

/-- Python `repr` of a string: single quotes, or double quotes when the
string holds an apostrophe but no double quote; backslash, the quote in
use and C0 controls are escaped. -/
def pyReprStr (s : String) : String :=
  let q := if s.data.contains squote ∧ ¬ s.data.contains dquote
    then dquote else squote
  let esc := s.data.flatMap fun c =>
    if c = '\\' then ['\\', '\\']
    else if c = q then ['\\', q]
    else if c = '\n' then ['\\', 'n']
    else if c = '\t' then ['\\', 't']
    else if c = '\r' then ['\\', 'r']
    else if c.toNat < 0x20 ∨ c.toNat = 0x7f then
      ['\\', 'x', hexDigitLower (c.toNat / 16), hexDigitLower c.toNat]
    else [c]
  String.mk (q :: esc ++ [q])

/-- Python `repr` of the object a JSON value parses to (dicts print with
single-quoted keys, `None` / `True` / `False` for null and booleans). -/
def pyReprJson : Json → String
  | .null => "None"
  | .bool true => "True"
  | .bool false => "False"
  | .num n => toString n
  | .str s => pyReprStr s
  | .arr items =>
    "[" ++ String.intercalate ", "
      (items.attach.map fun x => pyReprJson x.1) ++ "]"
  | .obj entries =>
    "\x7b" ++ String.intercalate ", "
      (entries.attach.map fun x =>
        pyReprStr x.1.1 ++ ": " ++ pyReprJson x.1.2) ++ "\x7d"
termination_by j => sizeOf j
decreasing_by
  · have := List.sizeOf_lt_of_mem x.2
    simp_all
    omega
  · rcases x with ⟨⟨k, v⟩, hmem⟩
    have := List.sizeOf_lt_of_mem hmem
    simp_all
    omega

/-- Python `str()` of a parsed-JSON value (as interpolated by an f-string:
strings print bare, containers via `repr`). -/
def pyStrJson : Json → String
  | .str s => s
  | j => pyReprJson j

/-- The Python type name of the object a JSON value parses to. -/
def pyTypeName : Json → String
  | .null => "NoneType"
  | .bool _ => "bool"
  | .num _ => "int"
  | .str _ => "str"
  | .arr _ => "list"
  | .obj _ => "dict"

/-! ## Query-parameter values and `urllib.parse.urlencode` -/

/-- A value placed in a query-parameter dict by the client methods:
a string, an integer, or a list of id strings. -/
inductive PVal
  | str (s : String)
  | int (n : Int)
  | list (items : List String)
deriving Repr, DecidableEq

/-- Python `str()` of a parameter value (`urlencode` stringifies values;
a list prints as its `repr`). -/
def pyStr : PVal → String
  | .str s => s
  | .int n => toString n
  | .list items =>
    "[" ++ String.intercalate ", " (items.map pyReprStr) ++ "]"

/-- Characters `quote_plus` leaves unencoded: ASCII alphanumerics and
`_.-~`. -/
def isUrlSafe (c : Char) : Bool :=
  c.isAlphanum || c = '_' || c = '.' || c = '-' || c = '~'

def hexDigitUpper (n : Nat) : Char := "0123456789ABCDEF".data.getD (n % 16) '0'

/-- `urllib.parse.quote_plus` on one character: safe characters pass,
space becomes `+`, anything else percent-encodes its UTF-8 bytes. -/
def quotePlusChar (c : Char) : List Char :=
  if isUrlSafe c then [c]
  else if c = ' ' then ['+']
  else (utf8EncodeChar c).flatMap fun b =>
    ['%', hexDigitUpper (b / 16), hexDigitUpper b]

def quotePlus (s : String) : String := String.mk (s.data.flatMap quotePlusChar)

/-- Model of `urllib.parse.urlencode` on an insertion-ordered dict. -/
def urlencode (params : List (String × PVal)) : String :=
  String.intercalate "&"
    (params.map fun kv => quotePlus kv.1 ++ "=" ++ quotePlus (pyStr kv.2))

/-! ## Exceptions (`exceptions.py`, plus the Python builtins the code
raises) -/

inductive PyErr
  | valueError (msg : String)
  | keyError (key : String)
  | attributeError (msg : String)
  | authenticationError (msg : String)
  | apiError (msg : String) (status_code : Option Nat) (response_data : Json)
deriving Repr

/-- The Python class name of a raised exception. -/
def PyErr.className : PyErr → String
  | .valueError _ => "ValueError"
  | .keyError _ => "KeyError"
  | .attributeError _ => "AttributeError"
  | .authenticationError _ => "AuthenticationError"
  | .apiError _ _ _ => "APIError"

/-- Python `str(e)` of an exception. -/
def PyErr.message : PyErr → String
  | .valueError msg => msg
  | .keyError key => pyReprStr key
  | .attributeError msg => msg
  | .authenticationError msg => msg
  | .apiError msg _ _ => msg

/-- Whether an exception is an `APIError`. -/
def PyErr.isAPIError : PyErr → Bool
  | .apiError _ _ _ => true
  | _ => false

/-! ## `Authenticator.__init__` and `UniversalAdsClient.__init__` -/

structure Authenticator where
  api_key : String
  private_key_pem : String
  private_key : ECPrivateKey

/-- `Authenticator.__init__` (`auth.py` lines 18–36), parametric over the
external `serialization.load_pem_private_key` primitive (PEM parsing is
library code outside the repository); a loader error is the `str` of the
exception it raises. -/
def authenticatorInit (loadPem : String → Except String ECPrivateKey)
    (api_key private_key_pem : String) : Except PyErr Authenticator :=
  match loadPem private_key_pem with
  | .ok k =>
    .ok { api_key := api_key, private_key_pem := private_key_pem,
          private_key := k }
  | .error e => .error (.valueError ("Invalid private key format: " ++ e))

structure UniversalAdsClient where
  base_url : String
  timeout : Nat
  authenticator : Authenticator

def BASE_URL : String := "https://api.universalads.com/v1"

/-- `UniversalAdsClient.__init__` (`client.py` lines 25–61); the retry
session setup carries no data relevant to any claim. -/
def clientInit (loadPem : String → Except String ECPrivateKey)
    (api_key private_key_pem : String) (base_url : Option String := none)
    (timeout : Nat := 30) : Except PyErr UniversalAdsClient :=
  let burl := match base_url with
    | some s => if s = "" then BASE_URL else s
    | none => BASE_URL
  match authenticatorInit loadPem api_key private_key_pem with
  | .error e =>
    .error (.authenticationError
      ("Failed to initialize authenticator: " ++ e.message))
  | .ok a => .ok { base_url := burl, timeout := timeout, authenticator := a }

/-! ## HTTP response handling (`client.py` lines 105–136) -/

/-- An HTTP response as the code observes it: status, the result of
`response.json()` (`none` models a JSON decode failure) and the raw
text. -/
structure HttpResponse where
  status_code : Nat
  jsonBody : Option Json
  text : String

/-- Outcome of `self.session.request(...)`: a response, or a raised
`requests.RequestException` carrying `str(e)`. -/
inductive TransportOutcome
  | response (r : HttpResponse)
  | failure (desc : String)

/-- The arguments handed to `self.session.request`. -/
structure SentRequest where
  method : String
  url : String
  headers : List (String × String)
  data : Option String

def jsonLookup : List (String × Json) → String → Option Json
  | [], _ => none
  | (k, v) :: rest, key => if k = key then some v else jsonLookup rest key

/-- `error_data.get("message", "Unknown error")`: on a dict the lookup
with default, on any other parsed value an `AttributeError` (only `dict`
has `.get`). -/
def pyGetMessage : Json → Except PyErr Json
  | .obj entries => .ok ((jsonLookup entries "message").getD (.str "Unknown error"))
  | j =>
    .error (.attributeError
      (String.mk [squote] ++ pyTypeName j ++ String.mk [squote] ++
        " object has no attribute " ++ String.mk [squote] ++ "get" ++
        String.mk [squote]))

/-- Representative `str` of the decode error `response.json()` raises on a
non-JSON 2xx body (a `requests` `JSONDecodeError`, a subclass of
`RequestException`; its precise message is not modelled, no claim
concerns it). -/
def jsonDecodeMessage : String := "Expecting value: line 1 column 1 (char 0)"

/-- Response/exception handling of `_make_request`, `client.py` lines
105–136: the `try` block around the transport call and the status
dispatch, with `except requests.RequestException` mapping to
`APIError(f"Request failed: ...")`. -/
def handleResponse : TransportOutcome → Except PyErr Json
  | .failure desc =>
    .error (.apiError ("Request failed: " ++ desc) none (.obj []))
  | .response r =>
    if r.status_code ≥ 400 then
      let error_data := match r.jsonBody with
        | some j => j
        | none => .obj [("message", .str r.text)]
      match pyGetMessage error_data with
      | .ok m =>
        .error (.apiError ("API request failed: " ++ pyStrJson m)
          (some r.status_code) error_data)
      | .error e => .error e
    else if r.status_code = 204 then .ok (.obj [])
    else match r.jsonBody with
      | some j => .ok j
      | none =>
        .error (.apiError ("Request failed: " ++ jsonDecodeMessage) none
          (.obj []))

/-! ## `UniversalAdsClient._make_request` (`client.py` lines 63–136) -/

/-- A request body argument: raw string or structured dict. -/
inductive PyBody
  | str (s : String)
  | dict (entries : List (String × Json))
deriving Repr

/-- Lines 93–99: `body_str` from `data` (`if data:` skips falsy values:
`None`, `""`, `{}`). -/
def bodyStr : Option PyBody → String
  | none => ""
  | some (.str s) => if s = "" then "" else s
  | some (.dict entries) =>
    if entries.isEmpty then "" else jsonDumps (.obj entries)

/-- `_make_request`, parametric over the HTTP transport. -/
def makeRequest (key : ECPrivateKey) (api_key : String) (now : Nat)
    (transport : SentRequest → TransportOutcome) (base_url : String)
    (method endpoint : String) (data : Option PyBody := none)
    (params : List (String × PVal) := []) : Except PyErr Json :=
  let url := base_url ++ endpoint
  let url := if params.isEmpty then url else url ++ "?" ++ urlencode params
  let body_str := bodyStr data
  match get_auth_headers key api_key now method url body_str with
  | none => .error (.keyError "x-api-key")
  | some headers =>
    let headers := headers ++ [("Content-Type", "application/json")]
    handleResponse (transport
      { method := method, url := url, headers := headers,
        data := if body_str = "" then none else some body_str })

/-! ## Query-parameter builders (`client.py` lines 140–378) -/

/-- `if v: params[key] = v` for a string-valued optional argument. -/
def addParamStr (params : List (String × PVal)) (key : String)
    (v : Option String) : List (String × PVal) :=
  match v with
  | none => params
  | some s => if s = "" then params else params ++ [(key, .str s)]

/-- `if v: params[key] = v` for an int-valued optional argument. -/
def addParamInt (params : List (String × PVal)) (key : String)
    (v : Option Int) : List (String × PVal) :=
  match v with
  | none => params
  | some n => if n = 0 then params else params ++ [(key, .int n)]

/-- `if v: params[key] = v` for a list-valued optional argument. -/
def addParamList (params : List (String × PVal)) (key : String)
    (v : Option (List String)) : List (String × PVal) :=
  match v with
  | none => params
  | some l => if l.isEmpty then params else params ++ [(key, .list l)]

/-- Params dict built by `get_creatives` (`client.py` lines 159–169). -/
def getCreativesParams (adaccount_id : Option String)
    (limit offset : Option Int) (sort : Option String) :
    List (String × PVal) :=
  let params : List (String × PVal) := []
  let params := addParamStr params "adaccount_id" adaccount_id
  let params := addParamInt params "limit" limit
  let params := addParamInt params "offset" offset
  let params := addParamStr params "sort" sort
  params

/-- Params dict built by `get_campaign_report` (lines 295–306). -/
def getCampaignReportParams (start_date end_date : String)
    (adaccount_id : Option String) (campaign_ids : Option (List String))
    (limit offset : Option Int) : List (String × PVal) :=
  let params := [("start_date", PVal.str start_date),
                 ("end_date", PVal.str end_date)]
  let params := addParamStr params "adaccount_id" adaccount_id
  let params := addParamList params "campaign_ids" campaign_ids
  let params := addParamInt params "limit" limit
  let params := addParamInt params "offset" offset
  params

/-- Params dict built by `get_adset_report` (lines 331–341). -/
def getAdsetReportParams (start_date end_date : String)
    (adaccount_id : Option String) (adset_ids : Option (List String))
    (limit offset : Option Int) : List (String × PVal) :=
  let params := [("start_date", PVal.str start_date),
                 ("end_date", PVal.str end_date)]
  let params := addParamStr params "adaccount_id" adaccount_id
  let params := addParamList params "adset_ids" adset_ids
  let params := addParamInt params "limit" limit
  let params := addParamInt params "offset" offset
  params

/-- Params dict built by `get_ad_report` (lines 367–377). -/
def getAdReportParams (start_date end_date : String)
    (adaccount_id : Option String) (ad_ids : Option (List String))
    (limit offset : Option Int) : List (String × PVal) :=
  let params := [("start_date", PVal.str start_date),
                 ("end_date", PVal.str end_date)]
  let params := addParamStr params "adaccount_id" adaccount_id
  let params := addParamList params "ad_ids" ad_ids
  let params := addParamInt params "limit" limit
  let params := addParamInt params "offset" offset
  params

/-! ## Shared lemmas -/

/-- Closed form of `create_canonical_request` when the api key is
present. -/
theorem create_canonical_request_eq (method url : String)
    (headers : List (String × String)) (timestamp body apiKey : String)
    (h : pyDictGet headers "x-api-key" = some apiKey) :
    create_canonical_request method url headers timestamp body =
      some (method ++ "\n" ++ canonicalPath url ++ "\n" ++
        canonicalQuery url ++ "\n" ++
        ("x-api-key:" ++ apiKey ++ "\n" ++ "x-timestamp:" ++ timestamp) ++
        "\n" ++ body ++ "\n" ++ "x-api-key;x-timestamp") := by
  unfold create_canonical_request
  rw [h]
  by_cases hb : body = "" <;> simp [hb]

/-- The api key is the first entry of the four fixed headers. -/
theorem pyDictGet_baseHeaders (api ts : String) :
    pyDictGet (baseHeaders api ts) "x-api-key" = some api := rfl

/-- Closed form of `get_auth_headers`. -/
theorem get_auth_headers_eq (key : ECPrivateKey) (api : String) (now : Nat)
    (method url body : String) :
    get_auth_headers key api now method url body =
      some (baseHeaders api (toString now) ++
        [("x-signature", sign_request key
          (method ++ "\n" ++ canonicalPath url ++ "\n" ++
            canonicalQuery url ++ "\n" ++
            ("x-api-key:" ++ api ++ "\n" ++ "x-timestamp:" ++
              toString now) ++
            "\n" ++ body ++ "\n" ++ "x-api-key;x-timestamp"))]) := by
  simp only [get_auth_headers,
    create_canonical_request_eq _ _ _ _ _ api
      (pyDictGet_baseHeaders api (toString now))]

/-! ## C1 -/

/-- C1: for every method, url, api key, timestamp and body,
`create_canonical_request` returns the six parts joined each by a single
newline in this exact order: the method token exactly as given, the URL's
path (defaulting to `"/"` when the parsed path is empty — `canonicalPath`),
the URL's query string (empty when absent — `canonicalQuery`), the
two-line headers block `x-api-key:<apiKey>` newline
`x-timestamp:<timestamp>` with no trailing newline, the body, and the
literal `"x-api-key;x-timestamp"`; the result is returned verbatim. -/
theorem canonical_request_six_parts (method url : String)
    (headers : List (String × String)) (apiKey timestamp body : String)
    (h : pyDictGet headers "x-api-key" = some apiKey) :
    create_canonical_request method url headers timestamp body =
      some (String.intercalate "\n"
        [method,
         canonicalPath url,
         canonicalQuery url,
         "x-api-key:" ++ apiKey ++ "\n" ++ "x-timestamp:" ++ timestamp,
         body,
         "x-api-key;x-timestamp"]) := by
  rw [create_canonical_request_eq _ _ _ _ _ _ h]
  rfl

/-- Witness for C1 at a concrete request. -/
theorem canonical_request_six_parts_witness :
    pyDictGet [("x-api-key", "key123")] "x-api-key" = some "key123" ∧
    create_canonical_request "GET"
      "https://api.universalads.com/v1/creative?limit=10"
      [("x-api-key", "key123")] "1700000000" "" =
      some (String.intercalate "\n"
        ["GET",
         canonicalPath "https://api.universalads.com/v1/creative?limit=10",
         canonicalQuery "https://api.universalads.com/v1/creative?limit=10",
         "x-api-key:" ++ "key123" ++ "\n" ++ "x-timestamp:" ++ "1700000000",
         "",
         "x-api-key;x-timestamp"]) :=
  ⟨rfl, canonical_request_six_parts "GET"
    "https://api.universalads.com/v1/creative?limit=10"
    [("x-api-key", "key123")] "key123" "1700000000" "" rfl⟩

/-! ## C2 -/

/-- Every character emitted by `base64Encode` is in the standard alphabet
or is the `=` pad. -/
theorem base64Encode_chars (bs : List Nat) :
    ∀ c ∈ base64Encode bs, c ∈ base64Alphabet ∨ c = '=' := by
  have hdig : ∀ n : Nat, base64Digit n ∈ base64Alphabet := by
    intro n
    have h64 : ∀ m < 64, base64Alphabet.getD m 'A' ∈ base64Alphabet := by
      decide
    exact h64 (n % 64) (Nat.mod_lt _ (by decide))
  induction bs using base64Encode.induct with
  | case1 => intro c hc; simp [base64Encode] at hc
  | case2 b1 =>
    intro c hc
    simp only [base64Encode, List.mem_cons, List.not_mem_nil, or_false] at hc
    rcases hc with rfl | rfl | rfl | rfl
    · exact Or.inl (hdig _)
    · exact Or.inl (hdig _)
    · exact Or.inr rfl
    · exact Or.inr rfl
  | case3 b1 b2 =>
    intro c hc
    simp only [base64Encode, List.mem_cons, List.not_mem_nil, or_false] at hc
    rcases hc with rfl | rfl | rfl | rfl
    · exact Or.inl (hdig _)
    · exact Or.inl (hdig _)
    · exact Or.inl (hdig _)
    · exact Or.inr rfl
  | case4 b1 b2 b3 rest ih =>
    intro c hc
    simp only [base64Encode, List.mem_cons] at hc
    rcases hc with rfl | rfl | rfl | rfl | h
    · exact Or.inl (hdig _)
    · exact Or.inl (hdig _)
    · exact Or.inl (hdig _)
    · exact Or.inl (hdig _)
    · exact ih c h

/-- `base64Encode` emits whole 4-character groups. -/
theorem base64Encode_length (bs : List Nat) :
    (base64Encode bs).length % 4 = 0 := by
  induction bs using base64Encode.induct with
  | case1 => simp [base64Encode]
  | case2 b1 => simp [base64Encode]
  | case3 b1 b2 => simp [base64Encode]
  | case4 b1 b2 b3 rest ih =>
    simp [base64Encode]
    omega

/-- C2: for every canonical request string, `sign_request` computes the
SHA-256 digest of the string's UTF-8 bytes, signs that digest with the
loaded key's raw ECDSA operation in prehashed mode (the digest is not
hashed again), and returns the signature bytes base64-encoded with the
standard alphabet and `=` padding. -/
theorem sign_request_sha256_prehashed_base64 (key : ECPrivateKey)
    (canonical_request : String) :
    sign_request key canonical_request =
      String.mk (base64Encode (key.signRaw
        (sha256 (utf8Encode canonical_request)))) ∧
    (∀ c ∈ (sign_request key canonical_request).data,
      c ∈ base64Alphabet ∨ c = '=') ∧
    (sign_request key canonical_request).data.length % 4 = 0 :=
  ⟨rfl, base64Encode_chars _, base64Encode_length _⟩

/-! ## C3 -/

/-- C3: for every method, url and body, `get_auth_headers` (with the clock
read `int(time.time())` made the explicit parameter `now`) returns exactly
the five headers `x-api-key` = the stored key, `x-timestamp` = the Unix
time stringified, the two fixed SDK-identification constants, and
`x-signature` = `sign_request` applied to the canonical request built from
that same method, url, api key, timestamp and body; and
`create_canonical_request` is pure, so a second call on identical inputs
returns the byte-identical output. -/
theorem auth_headers_five_deterministic (key : ECPrivateKey) (api : String)
    (now : Nat) (method url body : String) :
    ∃ canonical,
      create_canonical_request method url
        (baseHeaders api (toString now)) (toString now) body =
        some canonical ∧
      get_auth_headers key api now method url body =
        some [("x-api-key", api),
              ("x-timestamp", toString now),
              ("x-sdk-version", "1.0.0"),
              ("x-sdk-source", "universal-ads-python-sdk"),
              ("x-signature", sign_request key canonical)] ∧
      create_canonical_request method url
        (baseHeaders api (toString now)) (toString now) body =
      create_canonical_request method url
        (baseHeaders api (toString now)) (toString now) body := by
  refine ⟨_, create_canonical_request_eq method url _ (toString now) body api
    (pyDictGet_baseHeaders _ _), ?_, rfl⟩
  rw [get_auth_headers_eq]
  rfl

/-! ## C9 -/

/-- Strings with equal character data are equal. -/
theorem string_data_inj {s t : String} (h : s.data = t.data) : s = t := by
  cases s
  cases t
  exact congrArg String.mk h

/-- Right cancellation for string append. -/
theorem str_cancel_left (c1 c2 S : String) (h : c1 ++ S = c2 ++ S) :
    c1 = c2 := by
  apply string_data_inj
  have hd := congrArg String.data h
  simp only [String.data_append] at hd
  exact List.append_cancel_right hd

/-- Left cancellation for string append. -/
theorem str_cancel_pre (P x y : String) (h : P ++ x = P ++ y) : x = y := by
  apply string_data_inj
  have hd := congrArg String.data h
  simp only [String.data_append] at hd
  exact List.append_cancel_left hd

/-- C9: two calls of `create_canonical_request` whose six signed
components (method, defaulted path, defaulted query, api key, timestamp,
body) differ in exactly one component while all others are equal produce
different canonical request strings, so a signature over one does not
validate the other. -/
theorem canonical_single_component_change
    (m u : String) (hd : List (String × String)) (t b k : String)
    (m' u' : String) (hd' : List (String × String)) (t' b' k' : String)
    (hkey : pyDictGet hd "x-api-key" = some k)
    (hkey' : pyDictGet hd' "x-api-key" = some k')
    (hdiff :
      (m ≠ m' ∧ canonicalPath u = canonicalPath u' ∧
        canonicalQuery u = canonicalQuery u' ∧ k = k' ∧ t = t' ∧ b = b') ∨
      (m = m' ∧ canonicalPath u ≠ canonicalPath u' ∧
        canonicalQuery u = canonicalQuery u' ∧ k = k' ∧ t = t' ∧ b = b') ∨
      (m = m' ∧ canonicalPath u = canonicalPath u' ∧
        canonicalQuery u ≠ canonicalQuery u' ∧ k = k' ∧ t = t' ∧ b = b') ∨
      (m = m' ∧ canonicalPath u = canonicalPath u' ∧
        canonicalQuery u = canonicalQuery u' ∧ k ≠ k' ∧ t = t' ∧ b = b') ∨
      (m = m' ∧ canonicalPath u = canonicalPath u' ∧
        canonicalQuery u = canonicalQuery u' ∧ k = k' ∧ t ≠ t' ∧ b = b') ∨
      (m = m' ∧ canonicalPath u = canonicalPath u' ∧
        canonicalQuery u = canonicalQuery u' ∧ k = k' ∧ t = t' ∧ b ≠ b')) :
    create_canonical_request m u hd t b ≠
      create_canonical_request m' u' hd' t' b' := by
  intro heq
  rw [create_canonical_request_eq _ _ _ _ _ _ hkey,
      create_canonical_request_eq _ _ _ _ _ _ hkey'] at heq
  simp only [Option.some.injEq] at heq
  rcases hdiff with ⟨hne, h2, h3, h4, h5, h6⟩ | ⟨h1, hne, h3, h4, h5, h6⟩ |
    ⟨h1, h2, hne, h4, h5, h6⟩ | ⟨h1, h2, h3, hne, h5, h6⟩ |
    ⟨h1, h2, h3, h4, hne, h6⟩ | ⟨h1, h2, h3, h4, h5, hne⟩
  · rw [h2, h3, h4, h5, h6] at heq
    simp only [String.append_assoc] at heq
    exact hne (str_cancel_left _ _ _ heq)
  · rw [h1, h3, h4, h5, h6] at heq
    simp only [String.append_assoc] at heq
    have p1 := str_cancel_pre _ _ _ heq
    have p2 := str_cancel_pre _ _ _ p1
    exact hne (str_cancel_left _ _ _ p2)
  · rw [h1, h2, h4, h5, h6] at heq
    simp only [String.append_assoc] at heq
    have p1 := str_cancel_pre _ _ _ heq
    have p2 := str_cancel_pre _ _ _ p1
    have p3 := str_cancel_pre _ _ _ p2
    have p4 := str_cancel_pre _ _ _ p3
    exact hne (str_cancel_left _ _ _ p4)
  · rw [h1, h2, h3, h5, h6] at heq
    simp only [String.append_assoc] at heq
    have p1 := str_cancel_pre _ _ _ heq
    have p2 := str_cancel_pre _ _ _ p1
    have p3 := str_cancel_pre _ _ _ p2
    have p4 := str_cancel_pre _ _ _ p3
    have p5 := str_cancel_pre _ _ _ p4
    have p6 := str_cancel_pre _ _ _ p5
    have p7 := str_cancel_pre _ _ _ p6
    exact hne (str_cancel_left _ _ _ p7)
  · rw [h1, h2, h3, h4, h6] at heq
    simp only [String.append_assoc] at heq
    have p1 := str_cancel_pre _ _ _ heq
    have p2 := str_cancel_pre _ _ _ p1
    have p3 := str_cancel_pre _ _ _ p2
    have p4 := str_cancel_pre _ _ _ p3
    have p5 := str_cancel_pre _ _ _ p4
    have p6 := str_cancel_pre _ _ _ p5
    have p7 := str_cancel_pre _ _ _ p6
    have p8 := str_cancel_pre _ _ _ p7
    have p9 := str_cancel_pre _ _ _ p8
    have p10 := str_cancel_pre _ _ _ p9
    exact hne (str_cancel_left _ _ _ p10)
  · rw [h1, h2, h3, h4, h5] at heq
    simp only [String.append_assoc] at heq
    have p1 := str_cancel_pre _ _ _ heq
    have p2 := str_cancel_pre _ _ _ p1
    have p3 := str_cancel_pre _ _ _ p2
    have p4 := str_cancel_pre _ _ _ p3
    have p5 := str_cancel_pre _ _ _ p4
    have p6 := str_cancel_pre _ _ _ p5
    have p7 := str_cancel_pre _ _ _ p6
    have p8 := str_cancel_pre _ _ _ p7
    have p9 := str_cancel_pre _ _ _ p8
    have p10 := str_cancel_pre _ _ _ p9
    have p11 := str_cancel_pre _ _ _ p10
    have p12 := str_cancel_pre _ _ _ p11
    exact hne (str_cancel_left _ _ _ p12)

/-- Witness for C9: two requests identical except for the body. -/
theorem canonical_single_component_change_witness :
    pyDictGet [("x-api-key", "k1")] "x-api-key" = some "k1" ∧
    create_canonical_request "GET" "https://h/p" [("x-api-key", "k1")]
      "5" "bodyA" ≠
    create_canonical_request "GET" "https://h/p" [("x-api-key", "k1")]
      "5" "bodyB" :=
  ⟨rfl, canonical_single_component_change "GET" "https://h/p"
    [("x-api-key", "k1")] "5" "bodyA" "k1" "GET" "https://h/p"
    [("x-api-key", "k1")] "5" "bodyB" "k1" rfl rfl
    (Or.inr (Or.inr (Or.inr (Or.inr (Or.inr
      ⟨rfl, rfl, rfl, rfl, rfl, by decide⟩)))))⟩

/-! ## C4 -/

/-- A PEM loader that always fails, as `load_pem_private_key` does on
malformed, encrypted or non-EC input. -/
def loadPemReject : String → Except String ECPrivateKey :=
  fun _ => .error "Could not deserialize key data."

/-- The Python class name of the error of an `Except`, `""` on success. -/
def exceptErrClass {α : Type} : Except PyErr α → String
  | .error e => e.className
  | .ok _ => ""

/-- C4 (amended): when PEM loading fails, `Authenticator.__init__` raises a
`ValueError` (not a `KeyFormatError`, which does not exist in the code) at
construction time, `UniversalAdsClient.__init__` wraps it into an
`AuthenticationError`, and no client object is returned. -/
theorem construction_fails_with_valueerror_wrapped
    (loadPem : String → Except String ECPrivateKey) (api pem e : String)
    (h : loadPem pem = .error e) :
    authenticatorInit loadPem api pem =
      .error (.valueError ("Invalid private key format: " ++ e)) ∧
    clientInit loadPem api pem none 30 =
      .error (.authenticationError ("Failed to initialize authenticator: " ++
        ("Invalid private key format: " ++ e))) := by
  constructor
  · unfold authenticatorInit
    rw [h]
  · unfold clientInit authenticatorInit
    rw [h]
    rfl

/-- Witness for C4 at a concrete malformed PEM. -/
theorem construction_fails_with_valueerror_wrapped_witness :
    loadPemReject "not a pem" = .error "Could not deserialize key data." ∧
    (authenticatorInit loadPemReject "key" "not a pem" =
      .error (.valueError ("Invalid private key format: " ++
        "Could not deserialize key data.")) ∧
    clientInit loadPemReject "key" "not a pem" none 30 =
      .error (.authenticationError ("Failed to initialize authenticator: " ++
        ("Invalid private key format: " ++
          "Could not deserialize key data.")))) :=
  ⟨rfl, construction_fails_with_valueerror_wrapped loadPemReject "key"
    "not a pem" "Could not deserialize key data." rfl⟩

/-- Counterexample for C4 as stated: at a concrete malformed PEM the class
of the construction error is `ValueError`, which is not `KeyFormatError`. -/
theorem construction_error_class_counterexample :
    exceptErrClass (authenticatorInit loadPemReject "key" "not a pem") =
      "ValueError" ∧
    (("ValueError" == "KeyFormatError") = false) := ⟨rfl, rfl⟩

/-! ## C5 -/

/-- Shared closed form: a transport-level failure (connection error,
timeout, exhausted retries — a raised `requests.RequestException`) makes
`_make_request` raise `APIError(f"Request failed: {e}")` with no status
code and empty response data. -/
theorem makeRequest_transport_failure (key : ECPrivateKey) (api : String)
    (now : Nat) (desc base method endpoint : String) (data : Option PyBody)
    (params : List (String × PVal)) :
    makeRequest key api now (fun _ => .failure desc) base method endpoint
      data params =
      .error (.apiError ("Request failed: " ++ desc) none (.obj [])) := by
  simp only [makeRequest, get_auth_headers_eq]
  rfl

/-- C5 (amended): a network-level failure or exhausted retries surfaces
from `_make_request` as an `APIError` carrying the underlying cause
description in its message, with `status_code = None` — the code has no
distinct `TransportError` type. -/
theorem transport_failure_surfaces_as_apierror (key : ECPrivateKey)
    (api : String) (now : Nat) (desc base method endpoint : String)
    (data : Option PyBody) (params : List (String × PVal)) :
    makeRequest key api now (fun _ => .failure desc) base method endpoint
      data params =
      .error (.apiError ("Request failed: " ++ desc) none (.obj [])) :=
  makeRequest_transport_failure key api now desc base method endpoint data
    params

/-- An EC key whose raw signing operation returns fixed bytes (the raw
operation is abstract; any function works for these closed computations). -/
def demoKey : ECPrivateKey := ⟨fun _ => [2, 3]⟩

/-- A transport whose every attempt raises a connection error. -/
def refusedTransport : SentRequest → TransportOutcome :=
  fun _ => .failure "Connection refused"

/-- Counterexample for C5 as stated: the error raised on a transport
failure is an `APIError` — class `APIError`, not a distinct
`TransportError` type. -/
theorem transport_error_not_distinct_counterexample :
    exceptErrClass (makeRequest demoKey "k" 1700000000 refusedTransport
      BASE_URL "GET" "/creative" none []) = "APIError" ∧
    ((exceptErrClass (makeRequest demoKey "k" 1700000000 refusedTransport
      BASE_URL "GET" "/creative" none []) == "TransportError") = false) := by
  have h := makeRequest_transport_failure demoKey "k" 1700000000
    "Connection refused" BASE_URL "GET" "/creative" none []
  constructor
  · show exceptErrClass (makeRequest demoKey "k" 1700000000
      (fun _ => TransportOutcome.failure "Connection refused") BASE_URL
      "GET" "/creative" none []) = "APIError"
    rw [h]
    rfl
  · show (exceptErrClass (makeRequest demoKey "k" 1700000000
      (fun _ => TransportOutcome.failure "Connection refused") BASE_URL
      "GET" "/creative" none []) == "TransportError") = false
    rw [h]
    rfl

/-! ## C6 -/

/-- Field access on a parsed JSON object. -/
def jsonGet : Json → String → Option Json
  | .obj entries, k => jsonLookup entries k
  | _, _ => none

/-- Index access on a parsed JSON array. -/
def jsonIndex : Json → Nat → Option Json
  | .arr items, n => items[n]?
  | _, _ => none

/-- Unfolding of `handleResponse` on a delivered response. -/
theorem handleResponse_response (r : HttpResponse) :
    handleResponse (.response r) =
      if r.status_code ≥ 400 then
        (match pyGetMessage (match r.jsonBody with
            | some j => j
            | none => .obj [("message", .str r.text)]) with
         | .ok m =>
           .error (.apiError ("API request failed: " ++ pyStrJson m)
             (some r.status_code)
             (match r.jsonBody with
              | some j => j
              | none => .obj [("message", .str r.text)]))
         | .error e => .error e)
      else if r.status_code = 204 then .ok (.obj [])
      else match r.jsonBody with
        | some j => .ok j
        | none =>
          .error (.apiError ("Request failed: " ++ jsonDecodeMessage) none
            (.obj [])) := rfl

/-- C6 (amended): every response with status ≥ 400 whose body parses to a
JSON object — or fails to parse, in which case the raw text is wrapped as
`{"message": <text>}` — raises an `APIError` carrying that status code and
that body as `response_data`; in particular a 422 response with body
`{"errors":[{"field":"adaccount_id"}]}` yields `status_code = 422` and
`response_data.errors[0].field = "adaccount_id"`.  (As stated over every
≥ 400 response the claim fails: a body parsing to a non-object JSON value
escapes as an `AttributeError`, see the counterexample.) -/
theorem http_4xx_maps_to_apierror (key : ECPrivateKey)
    (api base method endpoint : String) (now : Nat) (r : HttpResponse)
    (h4 : 400 ≤ r.status_code)
    (hbody : (∃ entries, r.jsonBody = some (.obj entries)) ∨
      r.jsonBody = none) :
    (∃ msg, makeRequest key api now (fun _ => .response r) base method
        endpoint none [] =
      .error (.apiError msg (some r.status_code)
        (match r.jsonBody with
         | some j => j
         | none => .obj [("message", .str r.text)]))) ∧
    (match makeRequest demoKey "k" 1700000000
        (fun _ => .response ⟨422,
          some (.obj [("errors", .arr [.obj [("field",
            .str "adaccount_id")]])]), "raw"⟩)
        BASE_URL "GET" "/creative" none [] with
     | .error (.apiError _ sc rd) =>
        sc = some 422 ∧
        ((jsonGet rd "errors").bind (fun es => jsonIndex es 0)).bind
          (fun e0 => jsonGet e0 "field") = some (.str "adaccount_id")
     | _ => False) := by
  constructor
  · simp only [makeRequest, get_auth_headers_eq, handleResponse_response]
    rw [if_pos h4]
    rcases hbody with ⟨entries, hb⟩ | hb <;> rw [hb] <;> exact ⟨_, rfl⟩
  · exact ⟨rfl, rfl⟩

/-- Witness for C6 at a concrete 500 response with a non-JSON body. -/
theorem http_4xx_maps_to_apierror_witness :
    400 ≤ (500 : Nat) ∧
    ((∃ msg, makeRequest demoKey "k" 1700000000
        (fun _ => .response ⟨500, none, "Internal Server Error"⟩)
        BASE_URL "GET" "/creative" none [] =
      .error (.apiError msg (some 500)
        (.obj [("message", .str "Internal Server Error")]))) ∧
    (match makeRequest demoKey "k" 1700000000
        (fun _ => .response ⟨422,
          some (.obj [("errors", .arr [.obj [("field",
            .str "adaccount_id")]])]), "raw"⟩)
        BASE_URL "GET" "/creative" none [] with
     | .error (.apiError _ sc rd) =>
        sc = some 422 ∧
        ((jsonGet rd "errors").bind (fun es => jsonIndex es 0)).bind
          (fun e0 => jsonGet e0 "field") = some (.str "adaccount_id")
     | _ => False)) :=
  ⟨by decide, http_4xx_maps_to_apierror demoKey "k" BASE_URL "GET"
    "/creative" 1700000000 ⟨500, none, "Internal Server Error"⟩
    (by decide) (Or.inr rfl)⟩

/-- Counterexample for C6 as stated: a 400 response whose body is the JSON
array `[1]` makes `_make_request` raise an `AttributeError` (from
`error_data.get(...)` on a list), not an `APIError`. -/
theorem http_4xx_nonobject_body_counterexample :
    exceptErrClass (makeRequest demoKey "k" 1700000000
      (fun _ => .response ⟨400, some (.arr [.num 1]), "raw"⟩)
      BASE_URL "GET" "/creative" none []) = "AttributeError" ∧
    ((exceptErrClass (makeRequest demoKey "k" 1700000000
      (fun _ => .response ⟨400, some (.arr [.num 1]), "raw"⟩)
      BASE_URL "GET" "/creative" none []) == "APIError") = false) :=
  ⟨rfl, rfl⟩

/-! ## C7 -/

/-- C7: for every 2xx response, `_make_request` maps status 204 to the
empty mapping and parses any other success body as JSON; in particular a
200 response with body `{"id":"x"}` returns a mapping containing
`id: "x"`. -/
theorem success_responses_parse (key : ECPrivateKey)
    (api base method endpoint : String) (now : Nat) (r : HttpResponse)
    (h2 : r.status_code < 400) :
    makeRequest key api now (fun _ => .response r) base method endpoint
      none [] =
      (if r.status_code = 204 then .ok (.obj [])
       else match r.jsonBody with
         | some j => .ok j
         | none => .error (.apiError ("Request failed: " ++
             jsonDecodeMessage) none (.obj []))) ∧
    makeRequest demoKey "k" 1700000000
      (fun _ => .response ⟨200, some (.obj [("id", .str "x")]), ""⟩)
      BASE_URL "GET" "/creative" none [] = .ok (.obj [("id", .str "x")]) ∧
    jsonGet (.obj [("id", .str "x")]) "id" = some (.str "x") := by
  refine ⟨?_, rfl, rfl⟩
  simp only [makeRequest, get_auth_headers_eq, handleResponse_response]
  rw [if_neg (Nat.not_le.mpr h2)]

/-- Witness for C7 at a concrete 204 response. -/
theorem success_responses_parse_witness :
    (204 : Nat) < 400 ∧
    (makeRequest demoKey "k" 1700000000
      (fun _ => .response ⟨204, none, ""⟩) BASE_URL "DELETE"
      "/creative/abc" none [] =
      (if (204 : Nat) = 204 then Except.ok (Json.obj [])
       else match (none : Option Json) with
         | some j => Except.ok j
         | none => Except.error (.apiError ("Request failed: " ++
             jsonDecodeMessage) none (.obj []))) ∧
    makeRequest demoKey "k" 1700000000
      (fun _ => .response ⟨200, some (.obj [("id", .str "x")]), ""⟩)
      BASE_URL "GET" "/creative" none [] = .ok (.obj [("id", .str "x")]) ∧
    jsonGet (.obj [("id", .str "x")]) "id" = some (.str "x")) :=
  ⟨by decide, success_responses_parse demoKey "k" BASE_URL "DELETE"
    "/creative/abc" 1700000000 ⟨204, none, ""⟩ (by decide)⟩

/-! ## C8 -/

/-- `json.dumps` of a dict is never the empty string (it is at least
braces). -/
theorem jsonDumps_obj_ne_empty (entries : List (String × Json)) :
    jsonDumps (.obj entries) ≠ "" := by
  simp only [jsonDumps]
  intro h
  have hd := congrArg String.data h
  simp [String.data_append] at hd

/-- C8: with query parameters and a nonempty structured body,
`_make_request` builds the full URL (query string included) before
invoking the Authenticator, serializes the body to JSON once, and hands
the identical URL string and identical body string to `get_auth_headers`
and to the HTTP transport. -/
theorem signed_bytes_equal_sent_bytes (key : ECPrivateKey) (api : String)
    (now : Nat) (transport : SentRequest → TransportOutcome)
    (base method endpoint : String) (entries : List (String × Json))
    (params : List (String × PVal)) (hp : params ≠ [])
    (hd : entries ≠ []) :
    ∃ hs,
      get_auth_headers key api now method
        (base ++ endpoint ++ "?" ++ urlencode params)
        (jsonDumps (.obj entries)) = some hs ∧
      makeRequest key api now transport base method endpoint
        (some (.dict entries)) params =
        handleResponse (transport
          { method := method,
            url := base ++ endpoint ++ "?" ++ urlencode params,
            headers := hs ++ [("Content-Type", "application/json")],
            data := some (jsonDumps (.obj entries)) }) := by
  refine ⟨_, get_auth_headers_eq key api now method _ _, ?_⟩
  have hpe : params.isEmpty = false := by
    simpa [List.isEmpty_iff] using hp
  have hde : entries.isEmpty = false := by
    simpa [List.isEmpty_iff] using hd
  simp only [makeRequest, bodyStr, hpe, hde, Bool.false_eq_true, if_false,
    get_auth_headers_eq, if_neg (jsonDumps_obj_ne_empty entries)]

/-- Witness for C8 at a concrete PUT with body and query. -/
theorem signed_bytes_equal_sent_bytes_witness :
    ([("limit", PVal.int 10)] ≠ ([] : List (String × PVal))) ∧
    ([("name", Json.str "X")] ≠ ([] : List (String × Json))) ∧
    (∃ hs,
      get_auth_headers demoKey "k" 1700000000 "PUT"
        (BASE_URL ++ "/creative/abc" ++ "?" ++
          urlencode [("limit", PVal.int 10)])
        (jsonDumps (.obj [("name", Json.str "X")])) = some hs ∧
      makeRequest demoKey "k" 1700000000
        (fun _ => .response ⟨200, some (.obj []), ""⟩) BASE_URL "PUT"
        "/creative/abc" (some (.dict [("name", Json.str "X")]))
        [("limit", PVal.int 10)] =
        handleResponse (TransportOutcome.response
          ⟨200, some (.obj []), ""⟩)) :=
  ⟨by decide, by simp, signed_bytes_equal_sent_bytes demoKey "k"
    1700000000 (fun _ => .response ⟨200, some (.obj []), ""⟩) BASE_URL
    "PUT" "/creative/abc" [("name", Json.str "X")]
    [("limit", PVal.int 10)] (by decide) (by simp)⟩

/-! ## C10 -/

/-- Python truthiness of an optional string argument. -/
def pyTruthyStr : Option String → Bool
  | none => false
  | some s => s != ""

/-- Python truthiness of an optional int argument. -/
def pyTruthyInt : Option Int → Bool
  | none => false
  | some n => n != 0

/-- Python truthiness of an optional list argument. -/
def pyTruthyList : Option (List String) → Bool
  | none => false
  | some l => !l.isEmpty

/-- Replace a falsy optional string by "not supplied". -/
def truthyNormStr : Option String → Option String
  | none => none
  | some s => if s = "" then none else some s

/-- Replace a falsy optional int by "not supplied". -/
def truthyNormInt : Option Int → Option Int
  | none => none
  | some n => if n = 0 then none else some n

/-- Replace a falsy optional list by "not supplied". -/
def truthyNormList : Option (List String) → Option (List String)
  | none => none
  | some l => if l.isEmpty then none else some l

theorem addParamStr_norm (p : List (String × PVal)) (k : String)
    (v : Option String) :
    addParamStr p k (truthyNormStr v) = addParamStr p k v := by
  rcases v with _ | s
  · rfl
  · by_cases hs : s = "" <;> simp [truthyNormStr, addParamStr, hs]

theorem addParamInt_norm (p : List (String × PVal)) (k : String)
    (v : Option Int) :
    addParamInt p k (truthyNormInt v) = addParamInt p k v := by
  rcases v with _ | n
  · rfl
  · by_cases hn : n = 0 <;> simp [truthyNormInt, addParamInt, hn]

theorem addParamList_norm (p : List (String × PVal)) (k : String)
    (v : Option (List String)) :
    addParamList p k (truthyNormList v) = addParamList p k v := by
  rcases v with _ | l
  · rfl
  · by_cases hl : l.isEmpty <;> simp [truthyNormList, addParamList, hl]

theorem addParamStr_keys (p : List (String × PVal)) (k : String)
    (v : Option String) :
    (addParamStr p k v).map Prod.fst =
      p.map Prod.fst ++ (if pyTruthyStr v then [k] else []) := by
  rcases v with _ | s
  · simp [addParamStr, pyTruthyStr]
  · by_cases hs : s = "" <;> simp [addParamStr, pyTruthyStr, hs]

theorem addParamInt_keys (p : List (String × PVal)) (k : String)
    (v : Option Int) :
    (addParamInt p k v).map Prod.fst =
      p.map Prod.fst ++ (if pyTruthyInt v then [k] else []) := by
  rcases v with _ | n
  · simp [addParamInt, pyTruthyInt]
  · by_cases hn : n = 0 <;> simp [addParamInt, pyTruthyInt, hn]

theorem addParamList_keys (p : List (String × PVal)) (k : String)
    (v : Option (List String)) :
    (addParamList p k v).map Prod.fst =
      p.map Prod.fst ++ (if pyTruthyList v then [k] else []) := by
  rcases v with _ | l
  · simp [addParamList, pyTruthyList]
  · by_cases hl : l.isEmpty <;> simp [addParamList, pyTruthyList, hl]

/-- C10: in `get_creatives`, `get_campaign_report`, `get_adset_report` and
`get_ad_report`, an optional argument supplied with a Python-falsy value
(`limit=0`, `offset=0`, empty `adaccount_id`/`sort` string, empty id
list) builds the same params dict — and hence the same query string — as
not supplying it, and the keys present are exactly those of the truthy
arguments. -/
theorem falsy_params_omitted (aid : Option String) (lim off : Option Int)
    (srt : Option String) (sd ed : String)
    (ids : Option (List String)) :
    (getCreativesParams aid lim off srt =
      getCreativesParams (truthyNormStr aid) (truthyNormInt lim)
        (truthyNormInt off) (truthyNormStr srt)) ∧
    (urlencode (getCreativesParams aid lim off srt) =
      urlencode (getCreativesParams (truthyNormStr aid) (truthyNormInt lim)
        (truthyNormInt off) (truthyNormStr srt))) ∧
    ((getCreativesParams aid lim off srt).map Prod.fst =
      (if pyTruthyStr aid then ["adaccount_id"] else []) ++
      (if pyTruthyInt lim then ["limit"] else []) ++
      (if pyTruthyInt off then ["offset"] else []) ++
      (if pyTruthyStr srt then ["sort"] else [])) ∧
    (getCampaignReportParams sd ed aid ids lim off =
      getCampaignReportParams sd ed (truthyNormStr aid)
        (truthyNormList ids) (truthyNormInt lim) (truthyNormInt off)) ∧
    ((getCampaignReportParams sd ed aid ids lim off).map Prod.fst =
      ["start_date", "end_date"] ++
      (if pyTruthyStr aid then ["adaccount_id"] else []) ++
      (if pyTruthyList ids then ["campaign_ids"] else []) ++
      (if pyTruthyInt lim then ["limit"] else []) ++
      (if pyTruthyInt off then ["offset"] else [])) ∧
    (getAdsetReportParams sd ed aid ids lim off =
      getAdsetReportParams sd ed (truthyNormStr aid)
        (truthyNormList ids) (truthyNormInt lim) (truthyNormInt off)) ∧
    ((getAdsetReportParams sd ed aid ids lim off).map Prod.fst =
      ["start_date", "end_date"] ++
      (if pyTruthyStr aid then ["adaccount_id"] else []) ++
      (if pyTruthyList ids then ["adset_ids"] else []) ++
      (if pyTruthyInt lim then ["limit"] else []) ++
      (if pyTruthyInt off then ["offset"] else [])) ∧
    (getAdReportParams sd ed aid ids lim off =
      getAdReportParams sd ed (truthyNormStr aid)
        (truthyNormList ids) (truthyNormInt lim) (truthyNormInt off)) ∧
    ((getAdReportParams sd ed aid ids lim off).map Prod.fst =
      ["start_date", "end_date"] ++
      (if pyTruthyStr aid then ["adaccount_id"] else []) ++
      (if pyTruthyList ids then ["ad_ids"] else []) ++
      (if pyTruthyInt lim then ["limit"] else []) ++
      (if pyTruthyInt off then ["offset"] else [])) := by
  have h1 : getCreativesParams aid lim off srt =
      getCreativesParams (truthyNormStr aid) (truthyNormInt lim)
        (truthyNormInt off) (truthyNormStr srt) := by
    simp only [getCreativesParams, addParamStr_norm, addParamInt_norm]
  have h2 : getCampaignReportParams sd ed aid ids lim off =
      getCampaignReportParams sd ed (truthyNormStr aid)
        (truthyNormList ids) (truthyNormInt lim) (truthyNormInt off) := by
    simp only [getCampaignReportParams, addParamStr_norm, addParamInt_norm,
      addParamList_norm]
  have h3 : getAdsetReportParams sd ed aid ids lim off =
      getAdsetReportParams sd ed (truthyNormStr aid)
        (truthyNormList ids) (truthyNormInt lim) (truthyNormInt off) := by
    simp only [getAdsetReportParams, addParamStr_norm, addParamInt_norm,
      addParamList_norm]
  have h4 : getAdReportParams sd ed aid ids lim off =
      getAdReportParams sd ed (truthyNormStr aid)
        (truthyNormList ids) (truthyNormInt lim) (truthyNormInt off) := by
    simp only [getAdReportParams, addParamStr_norm, addParamInt_norm,
      addParamList_norm]
  refine ⟨h1, congrArg urlencode h1, ?_, h2, ?_, h3, ?_, h4, ?_⟩ <;>
    simp [getCreativesParams, getCampaignReportParams, getAdsetReportParams,
      getAdReportParams, addParamStr_keys, addParamInt_keys,
      addParamList_keys, List.append_assoc]

end UniversalAds
